import Mathlib

set_option maxHeartbeats 1000000

/-!
Shallow embedding of the real-time voice-assistant client.

Embedded code:
* `src/voice_assistant/main.py` — the session orchestrator `realtime_api`,
  its outbound pacing loop, its reconnect loop and the process entry `main`.
* `src/voice_assistant/tools/SendMessageAsync.py` — `SendMessageAsync.send_message`.

Components of the repository that are referenced by `main.py` but whose source is
not present under `src/` (the microphone class, the base64 audio codec, the
websocket event handler, the configuration constants) are modelled from the
spec; each such definition carries a doc comment starting `Modelled from the
spec:`.
-/

/-- Modelled from the spec: the base64 alphabet used by the text-safe audio
codec (`base64_encode_audio` and the matching decoder live in
`voice_assistant/utils`, which is absent from `src/`; the spec describes the
pair as the standard stateless text-safe encoding).  Maps a sextet value
(0..63) to its base64 alphabet ASCII code. -/
def sextetToCode (n : Nat) : Nat :=
  if n < 26 then 65 + n
  else if n < 52 then 97 + (n - 26)
  else if n < 62 then 48 + (n - 52)
  else if n = 62 then 43
  else 47

/-- Modelled from the spec: inverse of `sextetToCode` on the base64 alphabet;
returns `none` for an ASCII code outside the alphabet (in particular for the
padding code 61, the character `=`). -/
def codeToSextet (c : Nat) : Option Nat :=
  if 65 ≤ c ∧ c ≤ 90 then some (c - 65)
  else if 97 ≤ c ∧ c ≤ 122 then some (c - 97 + 26)
  else if 48 ≤ c ∧ c ≤ 57 then some (c - 48 + 52)
  else if c = 43 then some 62
  else if c = 47 then some 63
  else none

/-- Modelled from the spec: base64 encoding of a byte sequence (bytes as `Nat`
values below 256, output as ASCII codes, 61 = the padding character). -/
def b64EncodeChunks : List Nat → List Nat
  | [] => []
  | [b1] => [sextetToCode (b1 / 4), sextetToCode (b1 % 4 * 16), 61, 61]
  | [b1, b2] =>
      [sextetToCode (b1 / 4), sextetToCode (b1 % 4 * 16 + b2 / 16),
       sextetToCode (b2 % 16 * 4), 61]
  | b1 :: b2 :: b3 :: rest =>
      sextetToCode (b1 / 4) :: sextetToCode (b1 % 4 * 16 + b2 / 16) ::
      sextetToCode (b2 % 16 * 4 + b3 / 64) :: sextetToCode (b3 % 64) ::
      b64EncodeChunks rest

/-- Modelled from the spec: base64 decoding, the inverse of `b64EncodeChunks`.
Accepts only canonical encodings (length a multiple of four, padding only in
the final group, zero leftover bits); anything else decodes to `none`. -/
def b64DecodeChunks : List Nat → Option (List Nat)
  | [] => some []
  | c1 :: c2 :: c3 :: c4 :: rest =>
    match codeToSextet c1, codeToSextet c2 with
    | some s1, some s2 =>
      if c3 = 61 ∧ c4 = 61 then
        if rest = [] ∧ s2 % 16 = 0 then some [s1 * 4 + s2 / 16] else none
      else if c4 = 61 then
        match codeToSextet c3 with
        | some s3 =>
            if rest = [] ∧ s3 % 4 = 0 then
              some [s1 * 4 + s2 / 16, s2 % 16 * 16 + s3 / 4]
            else none
        | none => none
      else
        match codeToSextet c3, codeToSextet c4 with
        | some s3, some s4 =>
            (b64DecodeChunks rest).map
              (fun bs => (s1 * 4 + s2 / 16) :: (s2 % 16 * 16 + s3 / 4) ::
                         (s3 % 4 * 64 + s4) :: bs)
        | _, _ => none
    | _, _ => none
  | _ => none

/-- Configuration snapshot carried by the `session.update` event built at
`main.py` lines 58-74. -/
structure SessionConfig where
  modalities : List String
  instructions : String
  voice : String
  inputAudioFormat : String
  outputAudioFormat : String
  turnDetectionType : String
  silenceThreshold : Nat
  prefixPaddingMs : Nat
  silenceDurationMs : Nat
  tools : List String
deriving DecidableEq

/-- Outbound wire events sent by the client (spec section 3, `OutboundEvent`):
`session.update`, `input_audio_buffer.append`, the function-call result and
`response.cancel`. -/
inductive OutboundEvent where
  | sessionConfigure (cfg : SessionConfig)
  | audioAppend (audio : List Nat)
  | funcCallResult (callId : String) (output : String)
  | responseCancel
deriving DecidableEq

/-- Modelled from the spec: `SESSION_INSTRUCTIONS` comes from the config module,
absent from `src/`; the concrete value does not affect any claim. -/
def SESSION_INSTRUCTIONS : String := "You are a helpful assistant."

/-- Modelled from the spec: turn-detection threshold from the config module,
absent from `src/`; the concrete value does not affect any claim. -/
def SILENCE_THRESHOLD : Nat := 1

/-- Modelled from the spec: turn-detection leading padding (milliseconds) from
the config module, absent from `src/`. -/
def PREFIX_PADDING_MS : Nat := 300

/-- Modelled from the spec: turn-detection trailing silence (milliseconds) from
the config module, absent from `src/`. -/
def SILENCE_DURATION_MS : Nat := 500

/-- Modelled from the spec: the tool schema list from `voice_assistant/tools`,
absent from `src/` except for two tool classes; only the fact that the list is
carried by the configure event matters to the claims. -/
def TOOL_SCHEMAS : List String := ["GetCurrentTime", "SendMessageAsync"]

/-- The single `session.update` event built and sent at `main.py` lines 58-76. -/
def sessionUpdateEvent : OutboundEvent :=
  .sessionConfigure
    { modalities := ["text", "audio"]
      instructions := SESSION_INSTRUCTIONS
      voice := "shimmer"
      inputAudioFormat := "pcm16"
      outputAudioFormat := "pcm16"
      turnDetectionType := "server_vad"
      silenceThreshold := SILENCE_THRESHOLD
      prefixPaddingMs := PREFIX_PADDING_MS
      silenceDurationMs := SILENCE_DURATION_MS
      tools := TOOL_SCHEMAS }

/-- Recognizer for the configure event. -/
def isConfigure : OutboundEvent → Bool
  | .sessionConfigure _ => true
  | _ => false

/-- Recognizer for the audio-append event. -/
def isAudioAppend : OutboundEvent → Bool
  | .audioAppend _ => true
  | _ => false

/-- Input to one iteration of the outbound pacing loop (`main.py` lines 92-108):
the frames the capture callback appended to the microphone buffer since the
previous iteration, and the value of `mic.is_receiving` at this iteration. -/
structure PacingInput where
  captured : List Nat
  isReceiving : Bool
deriving DecidableEq

/-- One iteration of the outbound pacing loop, `main.py` lines 93-108.  Takes
the microphone buffer contents and the iteration input; returns the buffer
afterwards, the events sent on the websocket, and the raw frame blocks pushed
to the visual interface as energy samples.  `mic.get_audio_data` (drain and
clear, called only when `is_receiving` is false) is modelled from the spec,
its class being absent from `src/`. -/
def pacingStep (buffer : List Nat) (inp : PacingInput) :
    List Nat × List OutboundEvent × List (List Nat) :=
  let buf := buffer ++ inp.captured
  if inp.isReceiving then (buf, [], [])
  else if buf ≠ [] then
    let b := b64EncodeChunks buf
    if b ≠ [] then ([], [.audioAppend b], [buf])
    else ([], [], [])
  else ([], [], [])

/-- Repeated pacing iterations threading the microphone buffer. -/
def pacingRun (buffer : List Nat) : List PacingInput →
    List Nat × List OutboundEvent × List (List Nat)
  | [] => (buffer, [], [])
  | i :: rest =>
    let r1 := pacingStep buffer i
    let r2 := pacingRun r1.1 rest
    (r2.1, r1.2.1 ++ r2.2.1, r1.2.2 ++ r2.2.2)

/-- Turn-taking state (spec section 3, `TurnState`). -/
inductive TurnState where
  | idle
  | userSpeaking
  | assistantResponding
deriving DecidableEq

/-- Modelled from the spec: inbound server events decoded by the websocket
handler (`process_ws_messages`, absent from `src/`); tagged variant from spec
section 3 with a fatal flag on the error tag (spec dispatch table: close on a
fatal-flagged service error). -/
inductive InboundEvent where
  | speechStarted
  | speechStopped
  | audioDelta (audio : List Nat)
  | audioDone
  | transcriptDelta (text : String)
  | transcriptDone (text : String)
  | funcCallArgsDelta (callId : String) (chunk : String)
  | funcCallArgsDone (callId : String) (name : String)
  | errorEvt (fatal : Bool)
  | otherEvt
deriving DecidableEq

/-- Calls made by the dispatch loop on the external collaborators
(PlaybackSink, transcript sink). -/
inductive SinkCall where
  | cancelCurrent
  | enqueueAudio (audio : List Nat)
  | transcriptOut (text : String)
deriving DecidableEq

/-- State owned by the inbound dispatch loop: the turn state and the
partially-accumulated function-call arguments keyed by call id. -/
structure DispatchState where
  turnState : TurnState
  pendingCallArgs : List (String × String)
deriving DecidableEq

/-- A tool catalog: name and argument text to a result or a tool error. -/
def ToolMap : Type := String → String → Except String String

/-- Modelled from the spec: `ToolInvocationBridge.invoke` with error
conversion — a `ToolError` is converted to a textual result rather than
propagated. -/
def invokeTool (tools : ToolMap) (name arg : String) : String :=
  match tools name arg with
  | .ok r => r
  | .error e => "Tool error: " ++ e

/-- Append a chunk to the accumulated arguments of a call id, creating the
entry when absent. -/
def addChunk : List (String × String) → String → String → List (String × String)
  | [], cid, c => [(cid, c)]
  | p :: rest, cid, c =>
    if p.1 = cid then (p.1, p.2 ++ c) :: rest else p :: addChunk rest cid c

/-- Accumulated argument text for a call id (empty when absent). -/
def getArgs (l : List (String × String)) (cid : String) : String :=
  ((l.find? (fun p => p.1 = cid)).map Prod.snd).getD ""

/-- Drop the entry for a call id. -/
def removeCall (l : List (String × String)) (cid : String) :
    List (String × String) :=
  l.filter (fun p => p.1 ≠ cid)

/-- Modelled from the spec: dispatch of one inbound event per the dispatch
table of spec section 4.3 (the websocket handler is absent from `src/`).
Returns the new dispatch state, the outbound events sent back on the
transport, and the collaborator calls made. -/
def dispatchEvent (tools : ToolMap) (st : DispatchState) (e : InboundEvent) :
    DispatchState × List OutboundEvent × List SinkCall :=
  match e with
  | .speechStarted => ({ st with turnState := .userSpeaking }, [], [.cancelCurrent])
  | .speechStopped => ({ st with turnState := .idle }, [], [])
  | .audioDelta b => ({ st with turnState := .assistantResponding }, [], [.enqueueAudio b])
  | .audioDone => ({ st with turnState := .idle }, [], [])
  | .transcriptDelta t => (st, [], [.transcriptOut t])
  | .transcriptDone t => (st, [], [.transcriptOut t])
  | .funcCallArgsDelta cid chunk =>
      ({ st with pendingCallArgs := addChunk st.pendingCallArgs cid chunk }, [], [])
  | .funcCallArgsDone cid name =>
      ({ st with pendingCallArgs := removeCall st.pendingCallArgs cid },
       [.funcCallResult cid (invokeTool tools name (getArgs st.pendingCallArgs cid))], [])
  | .errorEvt _ => (st, [], [])
  | .otherEvt => (st, [], [])

/-- Result of running the dispatch loop over a list of inbound events. -/
structure DispatchRunOut where
  state : DispatchState
  outbound : List OutboundEvent
  sinks : List SinkCall
  processed : Nat
deriving DecidableEq

/-- Modelled from the spec: the inbound dispatch loop — dispatch events in
order, stopping only on a fatal-flagged service error (spec section 4.3:
"log and continue unless fatal-flagged by the service, in which case close"). -/
def dispatchRun (tools : ToolMap) (st : DispatchState) :
    List InboundEvent → DispatchRunOut
  | [] => { state := st, outbound := [], sinks := [], processed := 0 }
  | e :: rest =>
    if e = .errorEvt true then
      { state := st, outbound := [], sinks := [], processed := 1 }
    else
      let r1 := dispatchEvent tools st e
      let r2 := dispatchRun tools r1.1 rest
      { state := r2.state, outbound := r1.2.1 ++ r2.outbound,
        sinks := r1.2.2 ++ r2.sinks, processed := r2.processed + 1 }

/-- Per-session local state visible across the claims: turn state, microphone
capture buffer, partially-accumulated function-call arguments. -/
structure SessionState where
  turnState : TurnState
  captureBuffer : List Nat
  pendingCallArgs : List (String × String)
deriving DecidableEq

/-- The state a brand-new session starts from: `main.py` line 52 constructs a
fresh `AsyncMicrophone` (empty buffer, not receiving) and line 78 a fresh
websocket-handler task (no accumulated call arguments), so the turn state is
idle, the capture buffer empty and the pending call arguments empty. -/
def freshSessionState : SessionState :=
  { turnState := .idle, captureBuffer := [], pendingCallArgs := [] }

/-- The state the freshly created websocket-handler task starts from. -/
def freshDispatchState : DispatchState :=
  { turnState := .idle, pendingCallArgs := [] }

/-- Python exceptions distinguished by `realtime_api`:
`websockets.exceptions.ConnectionClosedError` with its string representation,
any other `Exception`, and `KeyboardInterrupt` (which is a `BaseException`
but not an `Exception`). -/
inductive PyExc where
  | connClosed (reason : String)
  | otherExc
  | kbInterrupt
deriving DecidableEq

/-- Whether a raised value is caught by `except Exception`. -/
def PyExc.isException : PyExc → Bool
  | .kbInterrupt => false
  | _ => true

/-- Resource and side-effect actions performed by `realtime_api`. -/
inductive ResAction where
  | connectAttempt
  | micStart
  | micStop
  | micClose
  | wsClose
  | visualDeactivate
  | pygameQuit
deriving DecidableEq

/-- Decision taken by the outer loop of `realtime_api` for one iteration. -/
inductive LoopDecision where
  | retryAfterDelay
  | breakLoop
  | propagateInterrupt
deriving DecidableEq

/-- Substring test on character lists, modelling the Python `in` operator on
strings. -/
def containsSub (needle : List Char) : List Char → Bool
  | [] => needle.isEmpty
  | c :: rest => needle.isPrefixOf (c :: rest) || containsSub needle rest

/-- Python `needle in hay` on strings. -/
def strContains (hay needle : String) : Bool :=
  containsSub needle.toList hay.toList

/-- The close-reason signature tested at `main.py` line 132. -/
def keepaliveSignature : String := "keepalive ping timeout"

/-- The exception classification of `main.py` lines 131-142: an exception
escaping the iteration body is retried only when it is a
`ConnectionClosedError` whose text contains the keepalive signature; any
other `Exception` breaks the loop; a `KeyboardInterrupt` matches neither
`except` clause and propagates out of `realtime_api`.  No escaping exception
(the `break` at line 130 or the `return` at line 42) ends the loop. -/
def classifyEscaping : Option PyExc → LoopDecision
  | none => .breakLoop
  | some (.connClosed r) =>
      if strContains r keepaliveSignature then .retryAfterDelay else .breakLoop
  | some .otherExc => .breakLoop
  | some .kbInterrupt => .propagateInterrupt

/-- Scripted input for one iteration of the outer `while True` loop of
`realtime_api`: whether each stage succeeds and, when it fails, the exception
it raises; the pacing-loop iterations executed; the exception that finally
ends the inner `while` (the inner loop can end no other way, because
`exit_event` is only set in its own `finally`); and the exception, if any,
re-raised by `await ws_task` / `await visual_task`. -/
structure IterInput where
  connectOk : Bool
  connectExc : PyExc
  configureOk : Bool
  configureExc : PyExc
  preLoopOk : Bool
  preLoopExc : PyExc
  pacing : List PacingInput
  innerExc : PyExc
  wsTaskExc : Option PyExc
  inbound : List InboundEvent
deriving DecidableEq

/-- Observable outcome of one iteration of the outer loop. -/
structure IterResult where
  sends : List OutboundEvent
  actions : List ResAction
  escaping : Option PyExc
  initState : SessionState
  endState : SessionState
deriving DecidableEq

/-- The body of one iteration of `realtime_api`'s `while True` loop
(`main.py` lines 38-130), given that the API key is present.

Control flow embedded from the source:
* line 52 creates the microphone and line 53 the visual interface before the
  connect, so both exist on every later path;
* a failure of `websockets.connect` (line 55) escapes with nothing sent;
* a failure of the configure send (line 76) escapes after the `async with`
  closes the websocket;
* a failure in lines 78-89 (task creation, `mic.start_recording`) escapes
  likewise, after the configure event was sent;
* otherwise the inner `while` runs pacing iterations until `innerExc` is
  raised; that exception is always caught (line 109 catches
  `KeyboardInterrupt`, line 111 catches every other `Exception`, including
  `ConnectionClosedError`), the inner `finally` (lines 115-120) stops and
  closes the microphone, closes the websocket and deactivates the visual
  interface, and `await ws_task` is wrapped in `except Exception`
  (lines 123-127), so only a `KeyboardInterrupt` from there escapes;
  execution then reaches the `break` at line 130. -/
def runIterationBody (tools : ToolMap) (inp : IterInput) : IterResult :=
  if ¬ inp.connectOk then
    { sends := [], actions := [.connectAttempt],
      escaping := some inp.connectExc,
      initState := freshSessionState, endState := freshSessionState }
  else if ¬ inp.configureOk then
    { sends := [], actions := [.connectAttempt, .wsClose],
      escaping := some inp.configureExc,
      initState := freshSessionState, endState := freshSessionState }
  else if ¬ inp.preLoopOk then
    { sends := [sessionUpdateEvent], actions := [.connectAttempt, .wsClose],
      escaping := some inp.preLoopExc,
      initState := freshSessionState, endState := freshSessionState }
  else
    let pr := pacingRun freshSessionState.captureBuffer inp.pacing
    let dr := dispatchRun tools freshDispatchState inp.inbound
    { sends := sessionUpdateEvent :: (pr.2.1 ++ dr.outbound),
      actions := [.connectAttempt, .micStart, .micStop, .micClose, .wsClose,
                  .visualDeactivate],
      escaping :=
        match inp.wsTaskExc with
        | some .kbInterrupt => some .kbInterrupt
        | _ => none,
      initState := freshSessionState,
      endState := { turnState := dr.state.turnState, captureBuffer := pr.1,
                    pendingCallArgs := dr.state.pendingCallArgs } }

/-- One iteration of the outer loop including the outer `finally`
(`main.py` lines 143-149), which runs on `break`, on `continue` and on a
propagating exception alike: it stops and closes the microphone (created at
line 52, hence present on every body path), closes the websocket when one was
assigned (only after a successful connect), and calls `pygame.quit()`. -/
def runIteration (tools : ToolMap) (inp : IterInput) : IterResult :=
  let r := runIterationBody tools inp
  { r with actions := r.actions ++ [.micStop, .micClose] ++
      (if inp.connectOk then [.wsClose] else []) ++ [.pygameQuit] }

/-- The outer `while True` loop of `realtime_api` over scripted iteration
inputs: run an iteration, classify its escaping exception per lines 131-142,
and either retry with the next scripted input, stop, or propagate a
`KeyboardInterrupt`.  Returns the iteration results, the per-iteration
decisions, and the exception propagating out of `realtime_api`, if any. -/
def runIters (tools : ToolMap) :
    List IterInput → List IterResult × List LoopDecision × Option PyExc
  | [] => ([], [], none)
  | inp :: rest =>
    let r := runIteration tools inp
    match classifyEscaping r.escaping with
    | .retryAfterDelay =>
      let t := runIters tools rest
      (r :: t.1, .retryAfterDelay :: t.2.1, t.2.2)
    | .breakLoop => ([r], [.breakLoop], none)
    | .propagateInterrupt => ([r], [.propagateInterrupt], some .kbInterrupt)

/-- Python truthiness of the optional `OPENAI_API_KEY` value: `os.getenv`
returns `None` when unset, and `if not api_key` also treats the empty string
as missing. -/
def truthyStr : Option String → Bool
  | none => false
  | some s => if s = "" then false else true

/-- Observable outcome of the whole process (`main` at `main.py`
lines 156-162 around `realtime_api`). -/
structure LoopRun where
  iterations : List IterResult
  decisions : List LoopDecision
  loggedMissingKey : Bool
  exitCode : Nat
deriving DecidableEq

/-- The process: `main` runs `realtime_api`.  When the key is missing or
empty, `realtime_api` logs an error and returns (line 42) — `main` then
finishes normally, so the process exit status is 0.  When `realtime_api`
propagates a `KeyboardInterrupt` or an `Exception`, `main` catches it
(lines 159-162), logs and returns — again exit status 0.  The model therefore
yields exit code 0 on every path, as the source does. -/
def runMain (tools : ToolMap) (env : Option String) (inputs : List IterInput) :
    LoopRun :=
  if truthyStr env = false then
    { iterations := [], decisions := [], loggedMissingKey := true, exitCode := 0 }
  else
    let r := runIters tools inputs
    { iterations := r.1, decisions := r.2.1, loggedMissingKey := false,
      exitCode := 0 }

/-- Whether the run ever reached `websockets.connect` (line 55). -/
def connectionAttempted (run : LoopRun) : Bool :=
  run.iterations.any (fun r => r.actions.contains .connectAttempt)

/-- Agent of an agency (from `agency_swarm`, external): only the name is
relevant to `SendMessageAsync.send_message`. -/
structure Agent where
  name : String
deriving DecidableEq

/-- Agency (from `agency_swarm`, external): only the agent list is relevant. -/
structure Agency where
  agents : List Agent
deriving DecidableEq

/-- Return value of `send_message`, by shape: the agency-not-found message,
the agent-not-found message (carrying the data interpolated into it), or the
thread-status message "Message sent asynchronously. Use GetResponse to check
status.". -/
inductive SendReturn where
  | agencyNotFound (agencyName : String)
  | agentNotFound (agentName : String) (agencyName : String) (available : List String)
  | sentAsync
deriving DecidableEq

/-- Observable outcome of `send_message`: whether `agency.get_completion` was
called and with which recipient (`some name` for a resolved agent, `none` for
the default agent), plus the returned message. -/
structure SendOut where
  dispatched : Option (Option String)
  ret : SendReturn
deriving DecidableEq

/-- Lookup of `AGENCIES.get(agency_name)` over an explicit agency table
(the `AGENCIES` mapping lives in `voice_assistant/agencies`, absent from
`src/`; the table is a parameter here). -/
def lookupAgency (agencies : List (String × Agency)) (n : String) :
    Option Agency :=
  (agencies.find? (fun p => p.1 = n)).map Prod.snd

/-- Embedding of `SendMessageAsync.send_message`
(`tools/SendMessageAsync.py` lines 43-63).  `if agency:` is the dictionary
lookup result being non-`None`; `if self.agent_name:` is Python truthiness, so
`None` and the empty string both fall back to the default agent; an unknown
agent of a known agency returns the agent-not-found message without
dispatching; otherwise `get_completion` is dispatched and the thread-status
message returned. -/
def send_message (agencies : List (String × Agency)) (agency_name : String)
    (agent_name : Option String) : SendOut :=
  match lookupAgency agencies agency_name with
  | some agency =>
    if truthyStr agent_name = true then
      match agency.agents.find? (fun a => a.name = agent_name.getD "") with
      | some r => { dispatched := some (some r.name), ret := .sentAsync }
      | none =>
          { dispatched := none,
            ret := .agentNotFound (agent_name.getD "") agency_name
                     (agency.agents.map Agent.name) }
    else { dispatched := some none, ret := .sentAsync }
  | none => { dispatched := none, ret := .agencyNotFound agency_name }

/-- A concrete empty tool catalog for closed instances. -/
def noTools : ToolMap := fun _ _ => .error "unknown tool"

/-- Concrete iteration input for C1: connect, configure and the pre-loop all
succeed, and the inner pacing loop ends with a `ConnectionClosedError` whose
text carries the keepalive signature — the realistic way a keepalive ping
timeout surfaces in `realtime_api`. -/
def c1FailingIter : IterInput :=
  { connectOk := true, connectExc := .otherExc, configureOk := true,
    configureExc := .otherExc, preLoopOk := true, preLoopExc := .otherExc,
    pacing := [], innerExc := .connClosed "keepalive ping timeout",
    wsTaskExc := none, inbound := [] }

/-- Concrete iteration input for C7: `websockets.connect` itself fails. -/
def c7FailIter : IterInput :=
  { connectOk := false, connectExc := .otherExc, configureOk := true,
    configureExc := .otherExc, preLoopOk := true, preLoopExc := .otherExc,
    pacing := [], innerExc := .otherExc, wsTaskExc := none, inbound := [] }

/-- Concrete iteration input for C6: the connect raises a
`ConnectionClosedError` carrying the keepalive signature, which is the one
escaping-exception shape the outer loop retries. -/
def c6RetryIter : IterInput :=
  { connectOk := false, connectExc := .connClosed "keepalive ping timeout",
    configureOk := true, configureExc := .otherExc, preLoopOk := true,
    preLoopExc := .otherExc, pacing := [], innerExc := .otherExc,
    wsTaskExc := none, inbound := [] }

/-- Concrete iteration input for C6: a session whose dispatch leaves a
partially-accumulated function call and whose pacing leaves nothing pending,
ending without retry. -/
def c6StopIter : IterInput :=
  { connectOk := true, connectExc := .otherExc, configureOk := true,
    configureExc := .otherExc, preLoopOk := true, preLoopExc := .otherExc,
    pacing := [{ captured := [1, 2], isReceiving := false }],
    innerExc := .otherExc, wsTaskExc := none,
    inbound := [.funcCallArgsDelta "call1" "partial"] }

/-- Concrete agency table for C10. -/
def demoAgency : Agency := { agents := [{ name := "BrowsingAgent" }] }

/-- Concrete agency table for C10. -/
def demoAgencies : List (String × Agency) := [("ResearchAgency", demoAgency)]

/-- Helper: the base64 encoder never returns an empty string on non-empty
input (every input shape produces at least one four-symbol group). -/
theorem b64EncodeChunks_ne_nil : ∀ bs : List Nat, bs ≠ [] → b64EncodeChunks bs ≠ []
  | [], h => absurd rfl h
  | [_], _ => by simp [b64EncodeChunks]
  | [_, _], _ => by simp [b64EncodeChunks]
  | _ :: _ :: _ :: _, _ => by simp [b64EncodeChunks]

/-- Helper: every event sent by a pacing iteration is an audio-append. -/
theorem pacingStep_sends_audio (buffer : List Nat) (i : PacingInput) :
    ∀ e ∈ (pacingStep buffer i).2.1, isAudioAppend e = true := by
  intro e he
  simp only [pacingStep] at he
  split_ifs at he with h1 h2 h3 <;> simp at he
  subst he
  rfl

/-- Helper: no pacing iteration ever sends a configure event. -/
theorem pacingStep_no_configure (buffer : List Nat) (i : PacingInput) :
    ∀ e ∈ (pacingStep buffer i).2.1, isConfigure e = false := by
  intro e he
  have h := pacingStep_sends_audio buffer i e he
  cases e <;> simp_all [isAudioAppend, isConfigure]

/-- Helper: no configure event among the sends of a pacing run. -/
theorem pacingRun_no_configure :
    ∀ (inputs : List PacingInput) (buffer : List Nat),
      ∀ e ∈ (pacingRun buffer inputs).2.1, isConfigure e = false := by
  intro inputs
  induction inputs with
  | nil => intro buffer e he; simp [pacingRun] at he
  | cons i rest ih =>
    intro buffer e he
    simp only [pacingRun, List.mem_append] at he
    rcases he with he | he
    · exact pacingStep_no_configure buffer i e he
    · exact ih _ e he

/-- Helper: the dispatch of one inbound event never sends a configure event. -/
theorem dispatchEvent_no_configure (tools : ToolMap) (st : DispatchState)
    (ev : InboundEvent) :
    ∀ e ∈ (dispatchEvent tools st ev).2.1, isConfigure e = false := by
  cases ev <;> intro e he <;> simp [dispatchEvent] at he <;> subst he <;> rfl

/-- Helper: no configure event among the sends of the dispatch loop. -/
theorem dispatchRun_no_configure (tools : ToolMap) :
    ∀ (evs : List InboundEvent) (st : DispatchState),
      ∀ e ∈ (dispatchRun tools st evs).outbound, isConfigure e = false := by
  intro evs
  induction evs with
  | nil => intro st e he; simp [dispatchRun] at he
  | cons ev rest ih =>
    intro st e he
    simp only [dispatchRun] at he
    split_ifs at he with hfd
    · simp at he
    · simp only [List.mem_append] at he
      rcases he with he | he
      · exact dispatchEvent_no_configure tools st ev e he
      · exact ih _ e he

/-- Helper: the sends of an iteration are those of the iteration body. -/
theorem runIteration_sends (tools : ToolMap) (inp : IterInput) :
    (runIteration tools inp).sends = (runIterationBody tools inp).sends := rfl

/-- Helper: every iteration of the outer loop starts from the fresh session
state: `main.py` line 52 constructs the microphone and line 78 the handler
task inside the loop body, and nothing of the previous iteration's state is
passed in. -/
theorem runIterationBody_initState (tools : ToolMap) (inp : IterInput) :
    (runIterationBody tools inp).initState = freshSessionState := by
  simp only [runIterationBody]
  split_ifs <;> rfl

/-- Helper: same fact for the full iteration. -/
theorem runIteration_initState (tools : ToolMap) (inp : IterInput) :
    (runIteration tools inp).initState = freshSessionState :=
  runIterationBody_initState tools inp

/-- Helper: every iteration result produced by the outer loop starts fresh. -/
theorem runIters_initState (tools : ToolMap) :
    ∀ (inputs : List IterInput) (r : IterResult),
      r ∈ (runIters tools inputs).1 → r.initState = freshSessionState := by
  intro inputs
  induction inputs with
  | nil => intro r hr; simp [runIters] at hr
  | cons inp rest ih =>
    intro r hr
    simp only [runIters] at hr
    rcases hd : classifyEscaping (runIteration tools inp).escaping with _ | _ | _ <;>
      rw [hd] at hr <;> simp at hr
    · rcases hr with hr | hr
      · subst hr; exact runIteration_initState tools inp
      · exact ih r hr
    · subst hr; exact runIteration_initState tools inp
    · subst hr; exact runIteration_initState tools inp

/-- Helper: the dispatch loop processes one event per step when no
fatal-flagged service error occurs. -/
theorem dispatchRun_processed (tools : ToolMap) :
    ∀ (evs : List InboundEvent) (st : DispatchState),
      (∀ e ∈ evs, e ≠ InboundEvent.errorEvt true) →
      (dispatchRun tools st evs).processed = evs.length := by
  intro evs
  induction evs with
  | nil => intro st _; rfl
  | cons ev rest ih =>
    intro st h
    have hev : ev ≠ InboundEvent.errorEvt true := h ev (by simp)
    simp only [dispatchRun, if_neg hev]
    have := ih (dispatchEvent tools st ev).1 (fun e he => h e (by simp [he]))
    simp [this]

/-- Concrete iteration input in which every stage succeeds and the inner loop
ends with a keyboard interrupt. -/
def fullOkIter : IterInput :=
  { connectOk := true, connectExc := .otherExc, configureOk := true,
    configureExc := .otherExc, preLoopOk := true, preLoopExc := .otherExc,
    pacing := [], innerExc := .kbInterrupt, wsTaskExc := none, inbound := [] }

/-- Helper: after a successful connect and configure send, the session's send
trace starts with the single configure event and nothing later in it is a
configure event. -/
theorem runIterationBody_sends_shape (tools : ToolMap) (inp : IterInput)
    (hc : inp.connectOk = true) (hcfg : inp.configureOk = true) :
    ∃ rest, (runIterationBody tools inp).sends = sessionUpdateEvent :: rest ∧
      ∀ e ∈ rest, isConfigure e = false := by
  by_cases hp : inp.preLoopOk = true
  · refine ⟨(pacingRun freshSessionState.captureBuffer inp.pacing).2.1 ++
      (dispatchRun tools freshDispatchState inp.inbound).outbound, ?_, ?_⟩
    · simp [runIterationBody, hc, hcfg, hp]
    · intro e he
      rcases List.mem_append.mp he with h | h
      · exact pacingRun_no_configure _ _ e h
      · exact dispatchRun_no_configure _ _ _ e h
  · refine ⟨[], ?_, by simp⟩
    simp [runIterationBody, hc, hcfg, hp]

/-- C1: the spec claims the orchestrator reconnects exactly when the
connection closes with the keepalive signature.  The reconnect classifier at
`main.py` lines 131-137 does implement that test, but a
`ConnectionClosedError` raised inside the active pacing loop is caught by the
blanket `except Exception` at line 111 (and one surfacing from the websocket
task is caught at line 126), so it never reaches the classifier: the
iteration falls through to the `break` at line 130 and the loop terminates
with no retry, contradicting the claim and the code's own
"Reconnecting..." / "Retry the connection" messages at lines 133-137. -/
theorem c1_keepalive_close_in_active_loop_not_retried :
    strContains "keepalive ping timeout" keepaliveSignature = true ∧
    classifyEscaping (some (PyExc.connClosed "keepalive ping timeout")) =
      LoopDecision.retryAfterDelay ∧
    (runIteration noTools c1FailingIter).escaping = none ∧
    (runIters noTools [c1FailingIter, c1FailingIter]).2.1 =
      [LoopDecision.breakLoop] := by
  refine ⟨?_, ?_, ?_, ?_⟩ <;> rfl

/-- C2: in any iteration of the outbound pacing loop in which the microphone
is currently emitting output (`mic.is_receiving` true), no event at all — in
particular no audio-append — is sent on the transport (`main.py` line 94). -/
theorem c2_mute_invariant (buffer : List Nat) (inp : PacingInput)
    (h : inp.isReceiving = true) :
    (pacingStep buffer inp).2.1 = [] := by
  simp [pacingStep, h]

/-- Witness for C2 at a concrete muted iteration with pending audio. -/
theorem c2_mute_invariant_witness :
    (pacingStep [1, 2] { captured := [3], isReceiving := true }).2.1 = [] :=
  c2_mute_invariant [1, 2] { captured := [3], isReceiving := true } rfl

/-- C3 (amended): when `OPENAI_API_KEY` is missing (or empty), `realtime_api`
logs an error and returns without attempting a connection, and the process
exits normally with status 0 — not with a non-zero status as the claim
stated (`main.py` lines 39-42 `return`, lines 156-162 catch everything). -/
theorem c3_missing_key_no_connect (tools : ToolMap) (env : Option String)
    (inputs : List IterInput) (h : truthyStr env = false) :
    (runMain tools env inputs).loggedMissingKey = true ∧
    connectionAttempted (runMain tools env inputs) = false ∧
    (runMain tools env inputs).exitCode = 0 := by
  simp [runMain, h, connectionAttempted]

/-- Witness for C3 with the empty-string credential. -/
theorem c3_missing_key_no_connect_witness :
    (runMain noTools (some "") []).loggedMissingKey = true ∧
    connectionAttempted (runMain noTools (some "") []) = false ∧
    (runMain noTools (some "") []).exitCode = 0 :=
  c3_missing_key_no_connect noTools (some "") [] rfl

/-- Counterexample for C3 as stated: with the credential absent the error is
logged and no connection is attempted, but the process exit status is 0,
refuting the claimed non-zero exit status. -/
theorem c3_missing_key_exit_code_zero :
    truthyStr none = false ∧
    (runMain noTools none []).loggedMissingKey = true ∧
    connectionAttempted (runMain noTools none []) = false ∧
    (runMain noTools none []).exitCode = 0 :=
  ⟨rfl, rfl, rfl, rfl⟩

/-- C4: within a session whose connect and configure send succeeded, the send
trace starts with the single `session.update` configure event (sent at
`main.py` line 76, immediately after the connect), no other configure event
is ever sent, and every audio-append occurs strictly after it. -/
theorem c4_single_configure_first (tools : ToolMap) (inp : IterInput)
    (hc : inp.connectOk = true) (hcfg : inp.configureOk = true) :
    (runIteration tools inp).sends.head? = some sessionUpdateEvent ∧
    (runIteration tools inp).sends.countP (fun e => isConfigure e) = 1 ∧
    (∀ i e, (runIteration tools inp).sends.get? i = some e →
      isAudioAppend e = true → 0 < i) := by
  rw [runIteration_sends]
  obtain ⟨rest, hs, hrest⟩ := runIterationBody_sends_shape tools inp hc hcfg
  rw [hs]
  refine ⟨rfl, ?_, ?_⟩
  · have h0 : rest.countP (fun e => isConfigure e) = 0 := by
      rw [List.countP_eq_zero]
      intro a ha
      simp [hrest a ha]
    have h1 : isConfigure sessionUpdateEvent = true := rfl
    simp [List.countP_cons, h0, h1]
  · intro i e hi ha
    cases i with
    | zero =>
      simp at hi
      subst hi
      simp [sessionUpdateEvent, isAudioAppend] at ha
    | succ n => exact Nat.succ_pos n

/-- Witness for C4 at a concrete successful session. -/
theorem c4_single_configure_first_witness :
    (runIteration noTools fullOkIter).sends.head? = some sessionUpdateEvent :=
  (c4_single_configure_first noTools fullOkIter rfl rfl).1

/-- C5: an unmuted pacing iteration drains the capture buffer; a non-empty
drain is base64-encoded and sent as one audio-append, and the same raw frames
are pushed to the visual interface as one energy sample; an empty drain sends
nothing and pushes nothing (`main.py` lines 94-108). -/
theorem c5_pacing_drain (buffer : List Nat) (inp : PacingInput)
    (h : inp.isReceiving = false) :
    (buffer ++ inp.captured ≠ [] →
      pacingStep buffer inp =
        ([], [OutboundEvent.audioAppend (b64EncodeChunks (buffer ++ inp.captured))],
         [buffer ++ inp.captured])) ∧
    (buffer ++ inp.captured = [] →
      pacingStep buffer inp = ([], [], [])) := by
  constructor
  · intro hne
    simp [pacingStep, h, hne, b64EncodeChunks_ne_nil _ hne]
  · intro he
    simp [pacingStep, h, he]

/-- Witness for C5: one non-empty and one empty drain. -/
theorem c5_pacing_drain_witness :
    (pacingStep [] { captured := [7, 8], isReceiving := false } =
      ([], [OutboundEvent.audioAppend (b64EncodeChunks ([] ++ [7, 8]))],
       [[] ++ [7, 8]])) ∧
    (pacingStep [] { captured := [], isReceiving := false } = ([], [], [])) :=
  ⟨(c5_pacing_drain [] { captured := [7, 8], isReceiving := false } rfl).1 (by simp),
   (c5_pacing_drain [] { captured := [], isReceiving := false } rfl).2 rfl⟩

/-- C6: every session entered after a reconnect decision starts from
completely fresh state — turn state idle, capture buffer empty, no
partially-accumulated function-call arguments — because `main.py` constructs
a new `AsyncMicrophone` (line 52) and a new handler task (line 78) inside the
loop body and passes nothing from the previous iteration in. -/
theorem c6_fresh_state_after_reconnect (tools : ToolMap) (env : Option String)
    (inputs : List IterInput) (i : Nat) (r : IterResult)
    (hd : (runMain tools env inputs).decisions.get? i =
      some LoopDecision.retryAfterDelay)
    (hr : (runMain tools env inputs).iterations.get? (i + 1) = some r) :
    r.initState.turnState = TurnState.idle ∧
    r.initState.captureBuffer = [] ∧
    r.initState.pendingCallArgs = [] := by
  by_cases he : truthyStr env = false
  · simp [runMain, he] at hr
  · have hiters : (runMain tools env inputs).iterations = (runIters tools inputs).1 := by
      simp [runMain, he]
    rw [hiters] at hr
    have hmem : r ∈ (runIters tools inputs).1 := List.get?_mem hr
    have hfresh := runIters_initState tools inputs r hmem
    rw [hfresh]
    exact ⟨rfl, rfl, rfl⟩

/-- Witness for C6: a transient-close retry followed by a session that
accumulates call arguments; the second session still starts fresh. -/
theorem c6_fresh_state_after_reconnect_witness :
    (runIteration noTools c6StopIter).initState.turnState = TurnState.idle ∧
    (runIteration noTools c6StopIter).initState.captureBuffer = [] ∧
    (runIteration noTools c6StopIter).initState.pendingCallArgs = [] :=
  c6_fresh_state_after_reconnect noTools (some "sk-test")
    [c6RetryIter, c6StopIter] 0 (runIteration noTools c6StopIter) rfl rfl

/-- C7 (amended): on every exit path of an iteration — and the outer
`finally` at `main.py` lines 143-149 runs on break, on retry and on a
propagating exception alike — the microphone is stopped and closed and
`pygame.quit()` runs; the websocket is closed whenever a connection was
opened; but `visual_interface.set_active(False)` runs only when the inner
pacing loop was entered (inner `finally`, line 120): on a connect, configure
or pre-loop failure the visual interface is never deactivated, only the
global `pygame.quit()` teardown runs. -/
theorem c7_resource_release (tools : ToolMap) (inp : IterInput) :
    ResAction.micStop ∈ (runIteration tools inp).actions ∧
    ResAction.micClose ∈ (runIteration tools inp).actions ∧
    ResAction.pygameQuit ∈ (runIteration tools inp).actions ∧
    (inp.connectOk = true → ResAction.wsClose ∈ (runIteration tools inp).actions) ∧
    (inp.connectOk = true → inp.configureOk = true → inp.preLoopOk = true →
      ResAction.visualDeactivate ∈ (runIteration tools inp).actions) := by
  simp only [runIteration, runIterationBody]
  by_cases h1 : inp.connectOk = true <;> by_cases h2 : inp.configureOk = true <;>
    by_cases h3 : inp.preLoopOk = true <;> simp [h1, h2, h3]

/-- Witness for C7 at a fully successful iteration. -/
theorem c7_resource_release_witness :
    ResAction.visualDeactivate ∈ (runIteration noTools fullOkIter).actions :=
  (c7_resource_release noTools fullOkIter).2.2.2.2 rfl rfl rfl

/-- Counterexample for C7 as stated: when `websockets.connect` fails, the
visual interface (created at line 53, before the connect) is never
deactivated — `set_active(False)` is only reached from the inner loop's
`finally` — even though the microphone is duly closed; so not every exit path
releases all owned resources as claimed. -/
theorem c7_connect_failure_skips_visual_deactivate :
    ResAction.visualDeactivate ∉ (runIteration noTools c7FailIter).actions ∧
    ResAction.micClose ∈ (runIteration noTools c7FailIter).actions := by
  decide

/-- C8: a tool error never terminates the session: dispatching a
function-call completion whose tool invocation fails sends the error back as
a textual function-call-result payload, and the dispatch loop still processes
every subsequent inbound event. -/
theorem c8_tool_error_session_continues (tools : ToolMap) (st : DispatchState)
    (events : List InboundEvent) (cid name msg : String)
    (hfail : tools name (getArgs st.pendingCallArgs cid) = Except.error msg)
    (hnf : ∀ e ∈ events, e ≠ InboundEvent.errorEvt true) :
    (dispatchRun tools st (InboundEvent.funcCallArgsDone cid name :: events)).processed
      = events.length + 1 ∧
    (dispatchRun tools st (InboundEvent.funcCallArgsDone cid name :: events)).outbound.head?
      = some (OutboundEvent.funcCallResult cid ("Tool error: " ++ msg)) := by
  have hne : InboundEvent.funcCallArgsDone cid name ≠ InboundEvent.errorEvt true := by
    simp
  constructor
  · simp only [dispatchRun, if_neg hne]
    simp [dispatchRun_processed tools events _ hnf]
  · simp only [dispatchRun, if_neg hne]
    simp [dispatchEvent, invokeTool, hfail]

/-- Witness for C8: a failing tool call followed by a further event; both are
processed and the error is sent back as text. -/
theorem c8_tool_error_session_continues_witness :
    (dispatchRun noTools { turnState := .idle, pendingCallArgs := [] }
        (InboundEvent.funcCallArgsDone "call7" "DoThing" ::
          [InboundEvent.speechStarted])).processed
      = [InboundEvent.speechStarted].length + 1 ∧
    (dispatchRun noTools { turnState := .idle, pendingCallArgs := [] }
        (InboundEvent.funcCallArgsDone "call7" "DoThing" ::
          [InboundEvent.speechStarted])).outbound.head?
      = some (OutboundEvent.funcCallResult "call7" ("Tool error: " ++ "unknown tool")) :=
  c8_tool_error_session_continues noTools { turnState := .idle, pendingCallArgs := [] }
    [InboundEvent.speechStarted] "call7" "DoThing" "unknown tool" rfl (by simp)

/-- C10 (amended): `send_message` is a total function — an unknown agency
name returns the agency-not-found message and an unknown (non-empty) agent
name of a known agency returns the agent-not-found message, neither
dispatching; it dispatches exactly when the agency exists and the agent name
is either absent-or-empty (Python truthiness of `if self.agent_name:`, which
then uses the default agent) or resolves to an agent of that agency. -/
theorem c10_send_message_characterization (agencies : List (String × Agency))
    (agency_name : String) (agent_name : Option String) :
    (lookupAgency agencies agency_name = none →
      send_message agencies agency_name agent_name
        = { dispatched := none, ret := .agencyNotFound agency_name }) ∧
    (∀ ag, lookupAgency agencies agency_name = some ag →
      truthyStr agent_name = true →
      ag.agents.find? (fun a => a.name = agent_name.getD "") = none →
      send_message agencies agency_name agent_name
        = { dispatched := none,
            ret := .agentNotFound (agent_name.getD "") agency_name
                     (ag.agents.map Agent.name) }) ∧
    (∀ ag a, lookupAgency agencies agency_name = some ag →
      truthyStr agent_name = true →
      ag.agents.find? (fun x => x.name = agent_name.getD "") = some a →
      send_message agencies agency_name agent_name
        = { dispatched := some (some a.name), ret := .sentAsync }) ∧
    (∀ ag, lookupAgency agencies agency_name = some ag →
      truthyStr agent_name = false →
      send_message agencies agency_name agent_name
        = { dispatched := some none, ret := .sentAsync }) := by
  refine ⟨?_, ?_, ?_, ?_⟩
  · intro hnone
    simp [send_message, hnone]
  · intro ag hag htr hnf
    simp [send_message, hag, htr, hnf]
  · intro ag a hag htr hf
    simp [send_message, hag, htr, hf]
  · intro ag hag htr
    simp [send_message, hag, htr]

/-- Witness for C10 at concrete inputs: unknown agency, unknown agent,
resolved agent, and default-agent dispatch. -/
theorem c10_send_message_characterization_witness :
    send_message demoAgencies "NoSuchAgency" (some "BrowsingAgent")
      = { dispatched := none, ret := .agencyNotFound "NoSuchAgency" } ∧
    send_message demoAgencies "ResearchAgency" (some "NoSuchAgent")
      = { dispatched := none,
          ret := .agentNotFound "NoSuchAgent" "ResearchAgency" ["BrowsingAgent"] } ∧
    send_message demoAgencies "ResearchAgency" (some "BrowsingAgent")
      = { dispatched := some (some "BrowsingAgent"), ret := .sentAsync } ∧
    send_message demoAgencies "ResearchAgency" none
      = { dispatched := some none, ret := .sentAsync } :=
  ⟨(c10_send_message_characterization demoAgencies "NoSuchAgency"
      (some "BrowsingAgent")).1 (by decide),
   (c10_send_message_characterization demoAgencies "ResearchAgency"
      (some "NoSuchAgent")).2.1 demoAgency (by decide) rfl (by decide),
   (c10_send_message_characterization demoAgencies "ResearchAgency"
      (some "BrowsingAgent")).2.2.1 demoAgency { name := "BrowsingAgent" }
      (by decide) rfl (by decide),
   (c10_send_message_characterization demoAgencies "ResearchAgency"
      none).2.2.2 demoAgency (by decide) rfl⟩

/-- Counterexample for C10 as stated: the empty string is a given agent name
that resolves to no agent of the (existing) agency, yet `send_message`
dispatches the message to the default agent, because `if self.agent_name:`
treats the empty string like `None`. -/
theorem c10_empty_agent_name_still_dispatches :
    lookupAgency demoAgencies "ResearchAgency" = some demoAgency ∧
    demoAgency.agents.find? (fun a => a.name = "") = none ∧
    (send_message demoAgencies "ResearchAgency" (some "")).dispatched = some none ∧
    (send_message demoAgencies "ResearchAgency" (some "")).ret = SendReturn.sentAsync := by
  refine ⟨?_, ?_, ?_, ?_⟩ <;> decide

/-- Helper: the code of every sextet decodes back to that sextet. -/
theorem codeToSextet_sextetToCode : ∀ n < 64, codeToSextet (sextetToCode n) = some n := by
  decide

/-- Helper: no sextet encodes to the padding code 61. -/
theorem sextetToCode_ne_pad : ∀ n < 64, sextetToCode n ≠ 61 := by
  decide

/-- Helper: a code accepted by the decoder is the encoding of its sextet,
which is below 64. -/
theorem sextetToCode_of_codeToSextet (c s : Nat) (h : codeToSextet c = some s) :
    sextetToCode s = c ∧ s < 64 := by
  unfold codeToSextet at h
  split_ifs at h with h1 h2 h3 h4 h5 <;>
    first
      | exact Option.noConfusion h
      | (injection h with h; subst h;
         refine ⟨?_, by omega⟩;
         unfold sextetToCode; split_ifs <;> omega)

/-- Helper: decoding the one-byte terminal group. -/
theorem b64_decode_one (b1 : Nat) (h : b1 < 256) :
    b64DecodeChunks [sextetToCode (b1 / 4), sextetToCode (b1 % 4 * 16), 61, 61]
      = some [b1] := by
  have e1 := codeToSextet_sextetToCode (b1 / 4) (by omega)
  have e2 := codeToSextet_sextetToCode (b1 % 4 * 16) (by omega)
  have m2 : b1 % 4 * 16 % 16 = 0 := by omega
  simp only [b64DecodeChunks, e1, e2]
  simp [m2]
  omega

/-- Helper: decoding the two-byte terminal group. -/
theorem b64_decode_two (b1 b2 : Nat) (h1 : b1 < 256) (h2 : b2 < 256) :
    b64DecodeChunks [sextetToCode (b1 / 4), sextetToCode (b1 % 4 * 16 + b2 / 16),
      sextetToCode (b2 % 16 * 4), 61] = some [b1, b2] := by
  have e1 := codeToSextet_sextetToCode (b1 / 4) (by omega)
  have e2 := codeToSextet_sextetToCode (b1 % 4 * 16 + b2 / 16) (by omega)
  have e3 := codeToSextet_sextetToCode (b2 % 16 * 4) (by omega)
  have p3 := sextetToCode_ne_pad (b2 % 16 * 4) (by omega)
  have m3 : b2 % 16 * 4 % 4 = 0 := by omega
  simp only [b64DecodeChunks, e1, e2, e3]
  rw [if_neg (by simp [p3])]
  simp [m3]
  omega

/-- Helper: decoding a full three-byte group peels it off and recurses. -/
theorem b64_decode_step (b1 b2 b3 : Nat) (rest : List Nat)
    (h1 : b1 < 256) (h2 : b2 < 256) (h3 : b3 < 256) :
    b64DecodeChunks (b64EncodeChunks (b1 :: b2 :: b3 :: rest)) =
      (b64DecodeChunks (b64EncodeChunks rest)).map
        (fun bs => b1 :: b2 :: b3 :: bs) := by
  have e1 := codeToSextet_sextetToCode (b1 / 4) (by omega)
  have e2 := codeToSextet_sextetToCode (b1 % 4 * 16 + b2 / 16) (by omega)
  have e3 := codeToSextet_sextetToCode (b2 % 16 * 4 + b3 / 64) (by omega)
  have e4 := codeToSextet_sextetToCode (b3 % 64) (by omega)
  have p3 := sextetToCode_ne_pad (b2 % 16 * 4 + b3 / 64) (by omega)
  have p4 := sextetToCode_ne_pad (b3 % 64) (by omega)
  have q1 : b1 / 4 * 4 + (b1 % 4 * 16 + b2 / 16) / 16 = b1 := by omega
  have q2 : (b1 % 4 * 16 + b2 / 16) % 16 * 16 + (b2 % 16 * 4 + b3 / 64) / 4 = b2 := by
    omega
  have q3 : (b2 % 16 * 4 + b3 / 64) % 4 * 64 + b3 % 64 = b3 := by omega
  simp only [b64EncodeChunks]
  simp only [b64DecodeChunks, e1, e2, e3, e4]
  rw [if_neg (by simp [p3]), if_neg p4]
  simp only [q1, q2, q3]

/-- Helper: decoding inverts encoding on byte sequences. -/
theorem b64_decode_encode : ∀ bs : List Nat, (∀ b ∈ bs, b < 256) →
    b64DecodeChunks (b64EncodeChunks bs) = some bs
  | [], _ => rfl
  | [b1], h => by
      simpa [b64EncodeChunks] using b64_decode_one b1 (h b1 (by simp))
  | [b1, b2], h => by
      simpa [b64EncodeChunks] using
        b64_decode_two b1 b2 (h b1 (by simp)) (h b2 (by simp))
  | b1 :: b2 :: b3 :: rest, h => by
      rw [b64_decode_step b1 b2 b3 rest (h b1 (by simp)) (h b2 (by simp))
        (h b3 (by simp))]
      rw [b64_decode_encode rest (fun b hb => h b (by simp [hb]))]
      rfl

/-- Helper: encoding inverts decoding on every string the decoder accepts. -/
theorem b64_encode_decode : ∀ (s bs : List Nat),
    b64DecodeChunks s = some bs → b64EncodeChunks bs = s
  | [], bs, h => by
      simp [b64DecodeChunks] at h
      subst h
      rfl
  | [c1], bs, h => by simp [b64DecodeChunks] at h
  | [c1, c2], bs, h => by simp [b64DecodeChunks] at h
  | [c1, c2, c3], bs, h => by simp [b64DecodeChunks] at h
  | c1 :: c2 :: c3 :: c4 :: rest, bs, h => by
      simp only [b64DecodeChunks] at h
      cases hc1 : codeToSextet c1 with
      | none => simp [hc1] at h
      | some s1 =>
        cases hc2 : codeToSextet c2 with
        | none => simp [hc1, hc2] at h
        | some s2 =>
          simp only [hc1, hc2] at h
          obtain ⟨g1, g1lt⟩ := sextetToCode_of_codeToSextet c1 s1 hc1
          obtain ⟨g2, g2lt⟩ := sextetToCode_of_codeToSextet c2 s2 hc2
          by_cases hp : c3 = 61 ∧ c4 = 61
          · rw [if_pos hp] at h
            by_cases hq : rest = [] ∧ s2 % 16 = 0
            · rw [if_pos hq] at h
              obtain ⟨hrest, hmod⟩ := hq
              injection h with h
              subst h
              subst hrest
              obtain ⟨hp3, hp4⟩ := hp
              subst hp3
              subst hp4
              simp only [b64EncodeChunks]
              have r1 : (s1 * 4 + s2 / 16) / 4 = s1 := by omega
              have r2 : (s1 * 4 + s2 / 16) % 4 * 16 = s2 := by omega
              rw [r1, r2, g1, g2]
            · rw [if_neg hq] at h
              cases h
          · rw [if_neg hp] at h
            by_cases h4 : c4 = 61
            · rw [if_pos h4] at h
              cases hc3 : codeToSextet c3 with
              | none => simp [hc3] at h
              | some s3 =>
                simp only [hc3] at h
                obtain ⟨g3, g3lt⟩ := sextetToCode_of_codeToSextet c3 s3 hc3
                by_cases hq : rest = [] ∧ s3 % 4 = 0
                · rw [if_pos hq] at h
                  obtain ⟨hrest, hmod⟩ := hq
                  injection h with h
                  subst h
                  subst hrest
                  subst h4
                  simp only [b64EncodeChunks]
                  have r1 : (s1 * 4 + s2 / 16) / 4 = s1 := by omega
                  have r2 : (s1 * 4 + s2 / 16) % 4 * 16 +
                      (s2 % 16 * 16 + s3 / 4) / 16 = s2 := by omega
                  have r3 : (s2 % 16 * 16 + s3 / 4) % 16 * 4 = s3 := by omega
                  rw [r1, r2, r3, g1, g2, g3]
                · rw [if_neg hq] at h
                  cases h
            · rw [if_neg h4] at h
              cases hc3 : codeToSextet c3 with
              | none => simp [hc3] at h
              | some s3 =>
                cases hc4 : codeToSextet c4 with
                | none => simp [hc3, hc4] at h
                | some s4 =>
                  simp only [hc3, hc4] at h
                  obtain ⟨g3, g3lt⟩ := sextetToCode_of_codeToSextet c3 s3 hc3
                  obtain ⟨g4, g4lt⟩ := sextetToCode_of_codeToSextet c4 s4 hc4
                  cases hrec : b64DecodeChunks rest with
                  | none => simp [hrec] at h
                  | some bs2 =>
                    simp only [hrec] at h
                    simp only [Option.map_some', Option.some.injEq] at h
                    subst h
                    simp only [b64EncodeChunks]
                    have r1 : (s1 * 4 + s2 / 16) / 4 = s1 := by omega
                    have r2 : (s1 * 4 + s2 / 16) % 4 * 16 +
                        (s2 % 16 * 16 + s3 / 4) / 16 = s2 := by omega
                    have r3 : (s2 % 16 * 16 + s3 / 4) % 16 * 4 +
                        (s3 % 4 * 64 + s4) / 64 = s3 := by omega
                    have r4 : (s3 % 4 * 64 + s4) % 64 = s4 := by omega
                    rw [r1, r2, r3, r4, g1, g2, g3, g4,
                      b64_encode_decode rest bs2 hrec]

/-- C9: the audio encoder/decoder pair is a stateless bijection between byte
payloads and their text-safe encodings: decoding inverts encoding on every
byte sequence (bytes below 256), and encoding inverts decoding on every
string the decoder accepts. -/
theorem c9_codec_roundtrip :
    (∀ bs : List Nat, (∀ b ∈ bs, b < 256) →
      b64DecodeChunks (b64EncodeChunks bs) = some bs) ∧
    (∀ s bs : List Nat, b64DecodeChunks s = some bs → b64EncodeChunks bs = s) :=
  ⟨b64_decode_encode, b64_encode_decode⟩

/-- Witness for C9: the bytes of "Hi!" round-trip through the codec, and the
codes of "SGkh" decode to those bytes and re-encode to themselves. -/
theorem c9_codec_roundtrip_witness :
    b64DecodeChunks (b64EncodeChunks [72, 105, 33]) = some [72, 105, 33] ∧
    b64EncodeChunks [72, 105, 33] = [83, 71, 107, 104] :=
  ⟨c9_codec_roundtrip.1 [72, 105, 33] (by decide),
   c9_codec_roundtrip.2 [83, 71, 107, 104] [72, 105, 33] (by decide)⟩
